import Mathlib

/-!
# Verification of the crypto-monitor backend account/entitlement model

A shallow embedding, in Lean 4, of the account lifecycle, entitlement,
identity-resolution, verification-code and notification-store logic of the
crypto-monitor backend (`app/models/user.py`, `app/crud/crud_user.py`,
`app/crud/crud_notification.py`, `app/core/email.py`, and the auth/oauth/users
endpoints), together with theorems settling the specification's claims about
that logic.

Conventions of the embedding:
* SQL timestamps are integers (seconds); a Python `timedelta(days=d)` is
  `d * 86400` seconds.  Every `datetime.utcnow()` call made while serving one
  request is modelled as the single request time `now`.
* A database table is a list of rows in insertion order; SQLAlchemy's
  `.first()` is `List.find?`.  A SQL equality test against a Python `None`
  argument is `IS NULL`, which Option-valued equality reproduces exactly.
* Python code that can raise is embedded with `Except`; an exception caught by
  a `try/except` block maps `Except.error` to the handler's result.
* `app/core/security.py` is not present in the source tree; the password
  hash/verify pair it provides is modelled from the spec (see
  `get_password_hash` / `verify_password` below).
-/

namespace CryptoMonitor

/-- `UserType` from `app/models/user.py`: trial / monthly / yearly / lifetime. -/
inductive UserType where
  | trial
  | monthly
  | yearly
  | lifetime
deriving DecidableEq, Repr

/-- `UserStatus` from `app/models/user.py`: active / inactive / suspended / expired. -/
inductive UserStatus where
  | active
  | inactive
  | suspended
  | expired
deriving DecidableEq, Repr

/-- The `users` table row from `app/models/user.py` (class `User`).
Timestamps are seconds; nullable columns are `Option`. -/
structure User where
  id : Nat
  username : String
  email : Option String
  hashed_password : Option String
  user_type : UserType
  status : UserStatus
  device_id : Option String
  user_agent : Option String
  ip_address : Option String
  oauth_provider : Option String
  oauth_provider_id : Option String
  oauth_email_verified : Bool
  trial_start_date : Option Int
  trial_end_date : Option Int
  subscription_start_date : Option Int
  subscription_end_date : Option Int
  max_follows : Int
  current_follows : Int
  email_notifications : Bool
  sms_notifications : Bool
  push_notifications : Bool
  created_at : Option Int
  updated_at : Option Int
  last_login_at : Option Int
deriving DecidableEq, Repr

/-- `User.is_trial_expired` (`app/models/user.py` lines 77-85), with the
property's `datetime.utcnow()` passed in as `now`. -/
def is_trial_expired (u : User) (now : Int) : Bool :=
  if u.user_type ≠ UserType.trial then false
  else
    match u.trial_end_date with
    | none => false
    | some t => now > t

/-- `User.is_subscription_active` (`app/models/user.py` lines 87-97). -/
def is_subscription_active (u : User) (now : Int) : Bool :=
  if u.user_type = UserType.trial then !is_trial_expired u now
  else if u.user_type = UserType.lifetime then true
  else
    match u.subscription_end_date with
    | none => false
    | some t => now ≤ t

/-- `User.can_add_follows` (`app/models/user.py` lines 99-102). -/
def can_add_follows (u : User) : Bool :=
  u.current_follows < u.max_follows

end CryptoMonitor

namespace CryptoMonitor

/-- C1: `is_subscription_active` returns `not is_trial_expired` on the trial
tier, `true` on the lifetime tier (regardless of any stored dates, in
particular with `subscription_end_date` unset), and otherwise is true iff
`subscription_end_date` is set and `now ≤ subscription_end_date`; and
`is_trial_expired` is true iff the tier is trial, `trial_end_date` is set and
`now > trial_end_date`. -/
theorem is_subscription_active_spec (u : User) (now : Int) :
    (u.user_type = UserType.trial →
      is_subscription_active u now = !is_trial_expired u now) ∧
    (u.user_type = UserType.lifetime → is_subscription_active u now = true) ∧
    (u.user_type ≠ UserType.trial → u.user_type ≠ UserType.lifetime →
      (is_subscription_active u now = true ↔
        ∃ t, u.subscription_end_date = some t ∧ now ≤ t)) ∧
    (is_trial_expired u now = true ↔
      u.user_type = UserType.trial ∧ ∃ t, u.trial_end_date = some t ∧ now > t) := by
  refine ⟨?_, ?_, ?_, ?_⟩
  · intro h
    simp [is_subscription_active, h]
  · intro h
    cases u.user_type <;> simp_all [is_subscription_active]
  · intro h1 h2
    cases hud : u.subscription_end_date with
    | none => simp [is_subscription_active, h1, h2, hud]
    | some t => simp [is_subscription_active, h1, h2, hud]
  · constructor
    · intro h
      by_cases ht : u.user_type = UserType.trial
      · cases hud : u.trial_end_date with
        | none => simp [is_trial_expired, ht, hud] at h
        | some t =>
          refine ⟨ht, t, rfl, ?_⟩
          simpa [is_trial_expired, ht, hud] using h
      · simp [is_trial_expired, ht] at h
    · rintro ⟨ht, t, hud, hlt⟩
      simp [is_trial_expired, ht, hud]
      exact hlt

/-- A typical account used to instantiate witnesses on concrete inputs. -/
def sampleUser : User :=
  { id := 1, username := "u", email := none, hashed_password := none,
    user_type := UserType.lifetime, status := UserStatus.active,
    device_id := none, user_agent := none, ip_address := none,
    oauth_provider := none, oauth_provider_id := none,
    oauth_email_verified := false,
    trial_start_date := none, trial_end_date := none,
    subscription_start_date := none, subscription_end_date := none,
    max_follows := 5, current_follows := 0,
    email_notifications := true, sms_notifications := false,
    push_notifications := true,
    created_at := some 0, updated_at := some 0, last_login_at := none }

/-- Closed instantiation of `is_subscription_active_spec`: a lifetime-tier
account with no `subscription_end_date` is reported active. -/
theorem is_subscription_active_spec_witness :
    is_subscription_active
      { id := 1, username := "u", email := none, hashed_password := none,
        user_type := UserType.lifetime, status := UserStatus.active,
        device_id := none, user_agent := none, ip_address := none,
        oauth_provider := none, oauth_provider_id := none,
        oauth_email_verified := false,
        trial_start_date := none, trial_end_date := none,
        subscription_start_date := none, subscription_end_date := none,
        max_follows := 5, current_follows := 0,
        email_notifications := true, sms_notifications := false,
        push_notifications := true,
        created_at := some 0, updated_at := some 0, last_login_at := none }
      999999 = true :=
  (is_subscription_active_spec _ 999999).2.1 rfl

/-! ## Settings, security primitives, and the users table -/

/-- The configuration fields used by the account logic
(`app/core/config.py`): `TRIAL_PERIOD_DAYS = 3`, `TRIAL_MAX_FOLLOWS = 5`,
the JWT `SECRET_KEY`, and the token lifetimes.  Note `config.py` declares
`ACCESS_TOKEN_EXPIRE_MINUTES` and `REFRESH_TOKEN_EXPIRE_DAYS`; there is no
`REFRESH_TOKEN_EXPIRE_MINUTES` field. -/
structure Settings where
  SECRET_KEY : String
  ACCESS_TOKEN_EXPIRE_MINUTES : Int
  REFRESH_TOKEN_EXPIRE_DAYS : Int
  TRIAL_PERIOD_DAYS : Int
  TRIAL_MAX_FOLLOWS : Int
deriving DecidableEq, Repr

/-- The global `settings` instance with the defaults from `app/core/config.py`. -/
def settings : Settings :=
  { SECRET_KEY := "your-secret-key-here-change-in-production",
    ACCESS_TOKEN_EXPIRE_MINUTES := 30,
    REFRESH_TOKEN_EXPIRE_DAYS := 7,
    TRIAL_PERIOD_DAYS := 3,
    TRIAL_MAX_FOLLOWS := 5 }

/-- `timedelta(days := d)` in seconds. -/
def days (d : Int) : Int := d * 86400

/-- Modelled from the spec: `app/core/security.py` is absent from the source
tree; the spec describes `hash(password) -> hash` as one-way and salted.  The
embedding uses an injective tagging function as the hash. -/
def get_password_hash (password : String) : String :=
  "bcrypt$" ++ password

/-- Modelled from the spec: `verify(password, hash) -> bool` from the missing
`app/core/security.py`, which the spec requires to fail closed — in particular
verification against an absent (`None`) stored hash is false. -/
def verify_password (password : String) (hashed : Option String) : Bool :=
  match hashed with
  | none => false
  | some h => h = get_password_hash password

/-- A Python exception relevant to the embedded code paths. -/
inductive PyError where
  | attributeError
deriving DecidableEq, Repr

/-- Python attribute access `settings.REFRESH_TOKEN_EXPIRE_MINUTES`
(`auth.py` lines 47, 70, 101 and 126): the pydantic `Settings` class in
`config.py` declares no such field — only `REFRESH_TOKEN_EXPIRE_DAYS` — so
the access raises `AttributeError`. -/
def Settings.attr_REFRESH_TOKEN_EXPIRE_MINUTES :
    Settings → Except PyError Int :=
  fun _ => .error .attributeError

/-- The `users` table: rows in insertion order plus the next autoincrement id. -/
structure DB where
  users : List User
  next_id : Nat
deriving DecidableEq, Repr

/-- Well-formedness of the autoincrement counter: every stored row's id is
below `next_id` (guaranteed by the primary-key autoincrement). -/
def DB.wf (db : DB) : Prop :=
  ∀ u ∈ db.users, u.id < db.next_id

instance (db : DB) : Decidable db.wf := by
  unfold DB.wf; infer_instance

/-- Commit of a mutated ORM row: every row with the same primary key is
replaced by the updated object. -/
def DB.replace_user (db : DB) (u' : User) : DB :=
  { db with users := db.users.map (fun v => if v.id = u'.id then u' else v) }

/-- `CRUDUser.get` (`crud_user.py` lines 15-16): first row with the given id. -/
def get_user (db : DB) (id : Nat) : Option User :=
  db.users.find? (fun u => u.id = id)

/-- `CRUDUser.get_by_email` (`crud_user.py` lines 18-19).  The argument is
optional because the OAuth endpoints pass `user_info['email']`, which may be
`None`; SQLAlchemy renders `== None` as `IS NULL`, which is exactly
Option-valued equality. -/
def get_by_email (db : DB) (email : Option String) : Option User :=
  db.users.find? (fun u => u.email = email)

/-- `CRUDUser.get_by_username` (`crud_user.py` lines 21-22). -/
def get_by_username (db : DB) (username : String) : Option User :=
  db.users.find? (fun u => u.username = username)

/-- `CRUDUser.get_by_device_id` (`crud_user.py` lines 24-25). -/
def get_by_device_id (db : DB) (device_id : String) : Option User :=
  db.users.find? (fun u => u.device_id = some device_id)

/-- The `UserRegister` request schema (`app/schemas/user.py`). -/
structure UserRegister where
  username : String
  email : String
  password : String
  verification_code : String
deriving DecidableEq, Repr

/-- The value actually passed as `obj_in` to `CRUDUser.create_user`: the
`register` endpoint passes a `UserRegister` pydantic object, but the
`auto_register` endpoint (`auth.py` lines 141-149) passes a plain `dict`. -/
inductive ObjIn where
  | reg (r : UserRegister)
  | dict (d : List (String × Option String))
deriving DecidableEq, Repr

/-- Python attribute access `obj_in.username` inside `create_user`: a
`UserRegister` object has the attribute, a plain `dict` does not (dict items
are not attributes), so the access raises `AttributeError`. -/
def ObjIn.attr_username : ObjIn → Except PyError String
  | .reg r => .ok r.username
  | .dict _ => .error .attributeError

/-- Python attribute access `obj_in.email` inside `create_user`. -/
def ObjIn.attr_email : ObjIn → Except PyError String
  | .reg r => .ok r.email
  | .dict _ => .error .attributeError

/-- Python attribute access `obj_in.password` inside `create_user`. -/
def ObjIn.attr_password : ObjIn → Except PyError String
  | .reg r => .ok r.password
  | .dict _ => .error .attributeError

/-- `CRUDUser.create_user` (`crud_user.py` lines 27-44): hashes the password
and inserts a fresh trial-tier row with `trial_end_date = now + TRIAL_PERIOD_DAYS`
and `max_follows = TRIAL_MAX_FOLLOWS`.  Attribute accesses on `obj_in` can
raise when a plain dict is passed (see `ObjIn`). -/
def create_user (db : DB) (obj_in : ObjIn) (now : Int) :
    Except PyError (User × DB) :=
  match obj_in.attr_password, obj_in.attr_username, obj_in.attr_email with
  | .error e, _, _ => .error e
  | _, .error e, _ => .error e
  | _, _, .error e => .error e
  | .ok password, .ok username, .ok email =>
  let hashed := get_password_hash password
  let u : User :=
    { id := db.next_id, username := username, email := some email,
      hashed_password := some hashed,
      user_type := UserType.trial, status := UserStatus.active,
      device_id := none, user_agent := none, ip_address := none,
      oauth_provider := none, oauth_provider_id := none,
      oauth_email_verified := false,
      trial_start_date := some now,
      trial_end_date := some (now + days settings.TRIAL_PERIOD_DAYS),
      subscription_start_date := none, subscription_end_date := none,
      max_follows := settings.TRIAL_MAX_FOLLOWS, current_follows := 0,
      email_notifications := true, sms_notifications := false,
      push_notifications := true,
      created_at := some now, updated_at := some now,
      last_login_at := some now }
  .ok (u, { users := db.users ++ [u], next_id := db.next_id + 1 })

/-- `CRUDUser.set_trial_period` (`crud_user.py` lines 108-118): re-grants the
trial window on the row with the given id. -/
def set_trial_period (db : DB) (user_id : Nat) (d : Int) (now : Int) :
    Option User × DB :=
  match get_user db user_id with
  | none => (none, db)
  | some u =>
    let u' := { u with
      trial_start_date := some now,
      trial_end_date := some (now + days d),
      user_type := UserType.trial,
      max_follows := settings.TRIAL_MAX_FOLLOWS }
    (some u', db.replace_user u')

/-! ## Verification-code store (`app/core/email.py`) -/

/-- The JSON blob stored in Redis per email by
`EmailService.store_verification_code`. -/
structure CodeEntry where
  code : String
  created_at : Int
  expires_at : Int
deriving DecidableEq, Repr

/-- The Redis keyspace restricted to `verification_code:{email}` keys:
an association list from email to the stored blob. -/
abbrev CodeStore := List (String × CodeEntry)

/-- `redis_client.setex(key, expires_in, value)`: overwrite the key. -/
def redis_setex (store : CodeStore) (email : String) (e : CodeEntry) : CodeStore :=
  (email, e) :: store.filter (fun p => p.1 ≠ email)

/-- `redis_client.get(key)` at time `now`: `setex` keys live for their
time-to-live, so a key stored with `expires_at = created_at + expires_in` is
gone once `now` passes `expires_at`. -/
def redis_get (store : CodeStore) (email : String) (now : Int) : Option CodeEntry :=
  match store.find? (fun p => p.1 = email) with
  | none => none
  | some (_, e) => if now ≤ e.expires_at then some e else none

/-- `redis_client.delete(key)`. -/
def redis_delete (store : CodeStore) (email : String) : CodeStore :=
  store.filter (fun p => p.1 ≠ email)

/-- `EmailService.store_verification_code` (`email.py` lines 29-48) with its
default `expires_in = 300`: stores the code with
`expires_at = now + expires_in`. -/
def store_verification_code (store : CodeStore) (email code : String)
    (now : Int) (expires_in : Int) : CodeStore :=
  redis_setex store email
    { code := code, created_at := now, expires_at := now + expires_in }

/-- `EmailService.verify_code` (`email.py` lines 50-77): succeeds iff the
stored code matches and `now ≤ expires_at`, deleting the key on success. -/
def verify_code (store : CodeStore) (email code : String) (now : Int) :
    Bool × CodeStore :=
  match redis_get store email now with
  | none => (false, store)
  | some e =>
    if e.code = code ∧ now ≤ e.expires_at then (true, redis_delete store email)
    else (false, store)

/-! ## The register and auto-register endpoints (`app/api/v1/endpoints/auth.py`) -/

/-- The outcome of `register_user`: an HTTP error status, an uncaught Python
exception together with the stores as already committed when it was raised,
or the user object placed in the token envelope with the updated stores. -/
inductive RegisterResult where
  | httpError (status : Nat)
  | pyError (e : PyError) (db : DB) (codes : CodeStore)
  | ok (user : User) (db : DB) (codes : CodeStore)
deriving DecidableEq, Repr

/-- `register_user` (`auth.py` lines 16-55): check the verification code,
reject duplicate email then duplicate username, create the trial user, and
re-grant the trial period with `settings.TRIAL_PERIOD_DAYS` — both commits
persist.  Building the response then reads
`settings.REFRESH_TOKEN_EXPIRE_MINUTES` (line 47), which raises
`AttributeError` (the field does not exist in `config.py`), so the request
fails after the commits.  Were the read to succeed, the `user` object in the
response would be the ORM row after `set_trial_period` mutated it
(SQLAlchemy's identity map: `set_trial_period` re-fetches the same row by
id). -/
def register_user (db : DB) (codes : CodeStore) (user_in : UserRegister)
    (now : Int) : RegisterResult :=
  let vres := verify_code codes user_in.email user_in.verification_code now
  let codes' := vres.2
  if !vres.1 then .httpError 400
  else
    match get_by_email db (some user_in.email) with
    | some _ => .httpError 400
    | none =>
      match get_by_username db user_in.username with
      | some _ => .httpError 400
      | none =>
        match create_user db (.reg user_in) now with
        | .error e => .pyError e db codes'
        | .ok (u, db1) =>
          let db2 := (set_trial_period db1 u.id settings.TRIAL_PERIOD_DAYS now).2
          match settings.attr_REFRESH_TOKEN_EXPIRE_MINUTES with
          | .error e => .pyError e db2 codes'
          | .ok _ =>
            match get_user db2 u.id with
            | some u2 => .ok u2 db2 codes'
            | none => .ok u db2 codes'

/-! ## Helper lemmas on row lookup -/

/-- Looking up an id in a table whose existing rows all miss it finds the
freshly appended row. -/
lemma find_id_append (l : List User) (u0 : User) (nid : Nat)
    (h0 : u0.id = nid) (h : ∀ v ∈ l, v.id ≠ nid) :
    (l ++ [u0]).find? (fun u => u.id = nid) = some u0 := by
  have h1 : l.find? (fun u => u.id = nid) = none :=
    List.find?_eq_none.mpr (fun x hx => by simpa using h x hx)
  rw [List.find?_append, h1]
  simp [List.find?_singleton, h0]

/-- Committing a mutated row leaves rows with other ids untouched. -/
lemma map_replace_of_ne (l : List User) (u' : User) (nid : Nat)
    (h : ∀ v ∈ l, v.id ≠ nid) :
    l.map (fun v => if v.id = nid then u' else v) = l := by
  induction l with
  | nil => rfl
  | cons a l ih =>
    have ha : a.id ≠ nid := h a (by simp)
    simp only [List.map_cons, if_neg ha]
    rw [ih (fun v hv => h v (by simp [hv]))]

/-- After inserting a fresh row, re-granting its trial window rewrites
exactly that row in place. -/
lemma set_trial_db (l : List User) (u0 : User) (m : Nat) (d now : Int)
    (h : ∀ v ∈ l, v.id ≠ u0.id) :
    (set_trial_period ⟨l ++ [u0], m⟩ u0.id d now).2 =
      ⟨l ++ [{ u0 with
        trial_start_date := some now,
        trial_end_date := some (now + days d),
        user_type := UserType.trial,
        max_follows := settings.TRIAL_MAX_FOLLOWS }], m⟩ := by
  have h1 : get_user (⟨l ++ [u0], m⟩ : DB) u0.id = some u0 :=
    find_id_append l u0 u0.id rfl h
  set u' : User := { u0 with
    trial_start_date := some now,
    trial_end_date := some (now + days d),
    user_type := UserType.trial,
    max_follows := settings.TRIAL_MAX_FOLLOWS } with hu'
  unfold set_trial_period
  rw [h1]
  show DB.replace_user ⟨l ++ [u0], m⟩ u' = ⟨l ++ [u'], m⟩
  unfold DB.replace_user
  simp only [List.map_append, List.map_cons, List.map_nil, if_true]
  rw [map_replace_of_ne l u' u0.id h]

/-- The row that `register_user` commits for a valid registration: the row
built by `create_user`, as subsequently rewritten by `set_trial_period`
within the same request (same `now`). -/
def registered_row (db : DB) (user_in : UserRegister) (now : Int) : User :=
  { id := db.next_id, username := user_in.username,
    email := some user_in.email,
    hashed_password := some (get_password_hash user_in.password),
    user_type := UserType.trial, status := UserStatus.active,
    device_id := none, user_agent := none, ip_address := none,
    oauth_provider := none, oauth_provider_id := none,
    oauth_email_verified := false,
    trial_start_date := some now,
    trial_end_date := some (now + days settings.TRIAL_PERIOD_DAYS),
    subscription_start_date := none, subscription_end_date := none,
    max_follows := settings.TRIAL_MAX_FOLLOWS, current_follows := 0,
    email_notifications := true, sms_notifications := false,
    push_notifications := true,
    created_at := some now, updated_at := some now,
    last_login_at := some now }

/-- C2 (code-bug evidence): for every valid registration request — the
stored code verifies and neither email nor username is taken — the register
endpoint commits a new row carrying the claimed trial fields
(`tier = trial`, `trial_end_date = created_at + TRIAL_PERIOD_DAYS`,
`max_follows = TRIAL_MAX_FOLLOWS`), but then raises `AttributeError`
reading `settings.REFRESH_TOKEN_EXPIRE_MINUTES`, so the request fails and no
account is ever returned; the device path raises even before creating a row
(see `auto_register_raises_on_new_device`). -/
theorem register_user_raises_after_commit (db : DB) (codes : CodeStore)
    (user_in : UserRegister) (now : Int)
    (hwf : DB.wf db)
    (hcode :
      (verify_code codes user_in.email user_in.verification_code now).1 = true)
    (hemail : get_by_email db (some user_in.email) = none)
    (huser : get_by_username db user_in.username = none) :
    register_user db codes user_in now =
      .pyError PyError.attributeError
        { users := db.users ++ [registered_row db user_in now],
          next_id := db.next_id + 1 }
        (verify_code codes user_in.email user_in.verification_code now).2 ∧
    (registered_row db user_in now).user_type = UserType.trial ∧
    (registered_row db user_in now).created_at = some now ∧
    (registered_row db user_in now).trial_end_date =
      some (now + days settings.TRIAL_PERIOD_DAYS) ∧
    (registered_row db user_in now).max_follows =
      settings.TRIAL_MAX_FOLLOWS := by
  have hne : ∀ v ∈ db.users, v.id ≠ db.next_id := by
    intro v hv
    exact Nat.ne_of_lt (hwf v hv)
  refine ⟨?_, rfl, rfl, rfl, rfl⟩
  simp only [register_user]
  rw [if_neg (by rw [hcode]; decide)]
  rw [hemail]
  rw [huser]
  simp only [create_user, ObjIn.attr_password, ObjIn.attr_username,
    ObjIn.attr_email, Settings.attr_REFRESH_TOKEN_EXPIRE_MINUTES]
  rw [set_trial_db db.users _ _ _ _ hne]
  rfl

/-- A stored verification code for the registration witness. -/
def regDemoCodes : CodeStore := store_verification_code [] "a@x.com" "123456" 0 300

/-- The registration request for the registration witness. -/
def regDemoInput : UserRegister :=
  { username := "alice", email := "a@x.com", password := "pw123456",
    verification_code := "123456" }

/-- Closed instantiation of `register_user_raises_after_commit` on a concrete
registration at time 0 over an empty table. -/
theorem register_user_raises_after_commit_witness :
    DB.wf { users := [], next_id := 0 } ∧
    (verify_code regDemoCodes regDemoInput.email
      regDemoInput.verification_code 0).1 = true ∧
    get_by_email { users := [], next_id := 0 } (some regDemoInput.email) =
      none ∧
    get_by_username { users := [], next_id := 0 } regDemoInput.username =
      none ∧
    (register_user { users := [], next_id := 0 } regDemoCodes regDemoInput 0 =
      .pyError PyError.attributeError
        { users := [] ++
            [registered_row { users := [], next_id := 0 } regDemoInput 0],
          next_id := 0 + 1 }
        (verify_code regDemoCodes regDemoInput.email
          regDemoInput.verification_code 0).2 ∧
     (registered_row { users := [], next_id := 0 } regDemoInput 0).user_type =
       UserType.trial ∧
     (registered_row { users := [], next_id := 0 } regDemoInput 0).created_at =
       some 0 ∧
     (registered_row { users := [], next_id := 0 } regDemoInput
       0).trial_end_date = some (0 + days settings.TRIAL_PERIOD_DAYS) ∧
     (registered_row { users := [], next_id := 0 } regDemoInput
       0).max_follows = settings.TRIAL_MAX_FOLLOWS) :=
  ⟨by decide, by decide, by decide, by decide,
   register_user_raises_after_commit { users := [], next_id := 0 }
     regDemoCodes regDemoInput 0 (by decide) (by decide) (by decide)
     (by decide)⟩

/-! ## Refresh-token verification (`crud_user.py` lines 173-183) -/

/-- Python attribute access `payload.get("sub")` where `payload : Bool`:
a Bool has no `get` method, so the access raises `AttributeError`. -/
def bool_attr_get_sub : Bool → Except PyError (Option String) :=
  fun _ => .error .attributeError

/-- `CRUDUser.verify_refresh_token` (`crud_user.py` lines 173-183): the code
computes `payload = verify_password(refresh_token, settings.SECRET_KEY)` —
a Bool — then evaluates `payload.get("sub")`, and the `try/except Exception`
turns the resulting `AttributeError` into `None`. -/
def verify_refresh_token (refresh_token : String) : Option Nat :=
  let payload := verify_password refresh_token (some settings.SECRET_KEY)
  match bool_attr_get_sub payload with
  | .error _ => none
  | .ok none => none
  | .ok (some s) => s.toNat?

/-- C3 (code-bug evidence): `verify_refresh_token` returns the invalid
sentinel on every input — including a well-formed, unexpired refresh token —
because verify_password yields a Bool and the subsequent `payload.get("sub")`
always raises, so no signature/expiry check ever returns a subject. -/
theorem verify_refresh_token_always_none (s : String) :
    verify_refresh_token s = none := rfl

/-! ## The auto-register endpoint (`auth.py` lines 110-160) -/

/-- The outcome of `auto_register_user`: an HTTP error response, an uncaught
Python exception, or the user in the token envelope with the updated table. -/
inductive AutoRegisterResult where
  | httpError (status : Nat)
  | pyError (e : PyError)
  | ok (user : User) (db : DB)
deriving DecidableEq, Repr

/-- `auto_register_user` (`auth.py` lines 110-160).  For a registered device
the code reads `settings.REFRESH_TOKEN_EXPIRE_MINUTES` (line 126) before
`update_last_login` (line 127); the read raises `AttributeError`, so the
branch fails without touching the row (were it to succeed, the account would
be returned with its last-login refreshed).  For an unknown device the
endpoint builds a plain `dict` and passes it to `create_user` (line 149);
`create_user`'s first attribute access on the dict raises `AttributeError`,
which no handler catches.  (Independently, that branch's return statement
would read `access_token_expires` before assignment.)  The random username
and password draws are passed in as `gen_username` / `gen_password`. -/
def auto_register_user (db : DB) (device_id : Option String)
    (user_agent : Option String) (client_ip : Option String)
    (gen_username gen_password : String) (now : Int) : AutoRegisterResult :=
  match device_id with
  | none => .httpError 400
  | some d =>
    if d = "" then .httpError 400
    else
      match get_by_device_id db d with
      | some u =>
        match settings.attr_REFRESH_TOKEN_EXPIRE_MINUTES with
        | .error e => .pyError e
        | .ok _ =>
          let u' := { u with last_login_at := some now }
          .ok u' (db.replace_user u')
      | none =>
        let user_create_data : List (String × Option String) :=
          [("username", some gen_username), ("email", none),
           ("password", some gen_password), ("device_id", some d),
           ("user_agent", user_agent), ("ip_address", client_ip)]
        match create_user db (.dict user_create_data) now with
        | .error e => .pyError e
        | .ok (u, db') => .ok u db'

/-- C4 (code-bug evidence): calling the auto-register endpoint with any
device id that has no account yet raises `AttributeError` instead of creating
and returning an account, so the operation cannot return the same account id
twice — the first call never returns one. -/
theorem auto_register_raises_on_new_device
    (db : DB) (d : String) (ua ip : Option String) (gu gp : String) (now : Int)
    (hne : d ≠ "") (hnew : get_by_device_id db d = none) :
    auto_register_user db (some d) ua ip gu gp now =
      .pyError .attributeError := by
  simp [auto_register_user, hne, hnew, create_user, ObjIn.attr_password]

/-- Closed instantiation of `auto_register_raises_on_new_device`: device
"device-1" on an empty table. -/
theorem auto_register_raises_on_new_device_witness :
    ("device-1" ≠ "") ∧
    get_by_device_id { users := [], next_id := 0 } "device-1" = none ∧
    auto_register_user { users := [], next_id := 0 } (some "device-1")
      none none "user_abcd1234" "pw" 0 = .pyError .attributeError :=
  ⟨by decide, by decide,
   auto_register_raises_on_new_device { users := [], next_id := 0 } "device-1"
     none none "user_abcd1234" "pw" 0 (by decide) (by decide)⟩

/-! ## OAuth identity resolution
(`app/api/v1/endpoints/oauth.py`, `crud_user.py` lines 129-171) -/

/-- The `user_info` dict built by `OAuthService.get_google_user_info` /
`get_apple_user_info` (`app/core/oauth.py`): provider name, provider-assigned
subject id, email and email-verified flag. -/
structure OAuthInfo where
  provider : String
  provider_id : Option String
  email : Option String
  email_verified : Bool
deriving DecidableEq, Repr

/-- `CRUDUser.get_by_oauth_provider` (`crud_user.py` lines 129-134): first row
whose provider and provider id both match (SQL `== None` is `IS NULL`, i.e.
Option equality). -/
def get_by_oauth_provider (db : DB) (provider : String)
    (provider_id : Option String) : Option User :=
  db.users.find? (fun u =>
    u.oauth_provider = some provider ∧ u.oauth_provider_id = provider_id)

/-- `CRUDUser.link_oauth_account` (`crud_user.py` lines 161-171): set the OAuth
attributes and `updated_at` on the existing row. -/
def link_oauth_account (u : User) (info : OAuthInfo) (now : Int) : User :=
  { u with
    oauth_provider := some info.provider,
    oauth_provider_id := info.provider_id,
    oauth_email_verified := info.email_verified,
    updated_at := some now }

/-- `CRUDUser.create_oauth_user` (`crud_user.py` lines 136-159): a fresh
trial-tier row with no password and the OAuth attributes; the random username
draw is passed in as `gen_username`. -/
def create_oauth_user (db : DB) (info : OAuthInfo) (gen_username : String)
    (now : Int) : User × DB :=
  let u : User :=
    { id := db.next_id, username := gen_username, email := info.email,
      hashed_password := none,
      user_type := UserType.trial, status := UserStatus.active,
      device_id := none, user_agent := none, ip_address := none,
      oauth_provider := some info.provider,
      oauth_provider_id := info.provider_id,
      oauth_email_verified := info.email_verified,
      trial_start_date := some now,
      trial_end_date := some (now + days settings.TRIAL_PERIOD_DAYS),
      subscription_start_date := none, subscription_end_date := none,
      max_follows := settings.TRIAL_MAX_FOLLOWS, current_follows := 0,
      email_notifications := true, sms_notifications := false,
      push_notifications := true,
      created_at := some now, updated_at := some now,
      last_login_at := some now }
  (u, { users := db.users ++ [u], next_id := db.next_id + 1 })

/-- The resolution logic shared by the `google/login`, `apple/login` and
`google/callback` endpoints (`oauth.py` lines 36-59): lookup by (provider,
subject); on a hit refresh last-login; else lookup by email and link; else
create a brand-new trial account.  Returns ((user, is_new_user), table). -/
def resolve_oauth (db : DB) (info : OAuthInfo) (gen_username : String)
    (now : Int) : (User × Bool) × DB :=
  match get_by_oauth_provider db info.provider info.provider_id with
  | some u =>
    let u' := { u with last_login_at := some now }
    ((u', false), db.replace_user u')
  | none =>
    match get_by_email db info.email with
    | some eu =>
      let u' := link_oauth_account eu info now
      ((u', false), db.replace_user u')
    | none =>
      let c := create_oauth_user db info gen_username now
      ((c.1, true), c.2)

/-- If a row satisfying `p` is found first, replacing rows of its id by a
row that still satisfies `p` makes the replacement the first hit. -/
lemma find?_map_replace_of_found (l : List User) (p : User → Bool)
    (u u' : User) (nid : Nat) (hfind : l.find? p = some u)
    (hnid : nid = u.id) (hp : p u' = true) :
    (l.map (fun v => if v.id = nid then u' else v)).find? p = some u' := by
  induction l with
  | nil => simp at hfind
  | cons a l ih =>
    by_cases hpa : p a
    · rw [List.find?_cons_of_pos _ hpa] at hfind
      obtain rfl : a = u := by injection hfind
      simp only [List.map_cons]
      rw [if_pos hnid.symm]
      exact List.find?_cons_of_pos _ hp
    · rw [List.find?_cons_of_neg _ hpa] at hfind
      simp only [List.map_cons]
      by_cases haid : a.id = nid
      · rw [if_pos haid]
        exact List.find?_cons_of_pos _ hp
      · rw [if_neg haid, List.find?_cons_of_neg _ hpa]
        exact ih hfind

/-- If no row satisfies `p` but some row has id `nid`, replacing rows of that
id by a `p`-satisfying row makes the replacement the first hit. -/
lemma find?_map_replace_of_none (l : List User) (p : User → Bool) (u' : User)
    (nid : Nat) (hnone : ∀ v ∈ l, ¬ p v) (hp : p u' = true)
    (hmem : ∃ v ∈ l, v.id = nid) :
    (l.map (fun v => if v.id = nid then u' else v)).find? p = some u' := by
  induction l with
  | nil =>
    obtain ⟨v, hv, _⟩ := hmem
    simp at hv
  | cons a l ih =>
    simp only [List.map_cons]
    by_cases haid : a.id = nid
    · rw [if_pos haid]
      exact List.find?_cons_of_pos _ hp
    · rw [if_neg haid, List.find?_cons_of_neg _ (hnone a (by simp))]
      refine ih (fun v hv => hnone v (by simp [hv])) ?_
      obtain ⟨v, hv, hvid⟩ := hmem
      rcases List.mem_cons.mp hv with rfl | hv'
      · exact absurd hvid haid
      · exact ⟨v, hv', hvid⟩

/-- If no row satisfies `p`, appending a `p`-satisfying row makes it the
first hit. -/
lemma find?_append_singleton (l : List User) (p : User → Bool) (u' : User)
    (hnone : ∀ v ∈ l, ¬ p v) (hp : p u' = true) :
    (l ++ [u']).find? p = some u' := by
  rw [List.find?_append, List.find?_eq_none.mpr hnone]
  simp [List.find?_singleton, hp]

/-- After any OAuth resolution, looking the (provider, subject) pair up again
finds exactly the account the resolution returned. -/
lemma resolve_finds (db : DB) (info : OAuthInfo) (gu : String) (now : Int) :
    get_by_oauth_provider (resolve_oauth db info gu now).2 info.provider
      info.provider_id = some (resolve_oauth db info gu now).1.1 := by
  unfold resolve_oauth
  cases hfound : get_by_oauth_provider db info.provider info.provider_id with
  | some u =>
    have hpu := List.find?_some hfound
    simp only
    unfold get_by_oauth_provider DB.replace_user
    dsimp only
    refine find?_map_replace_of_found _ _ u _ u.id hfound rfl ?_
    simpa using hpu
  | none =>
    cases hemail : get_by_email db info.email with
    | some eu =>
      have hmem : eu ∈ db.users := List.mem_of_find?_eq_some hemail
      simp only
      unfold get_by_oauth_provider DB.replace_user
      dsimp only
      refine find?_map_replace_of_none _ _ _ eu.id
        (List.find?_eq_none.mp hfound) ?_ ⟨eu, hmem, rfl⟩
      simp [link_oauth_account]
    | none =>
      simp only
      unfold get_by_oauth_provider create_oauth_user
      dsimp only
      refine find?_append_singleton _ _ _
        (List.find?_eq_none.mp hfound) ?_
      simp

/-- C5: OAuth resolution.  (1) Resolving the same (provider, subject) a second
time returns the account of the first resolution (only with a refreshed
last-login), reports it as not new, and its sole table effect is that
last-login touch — no re-link, no duplicate row.  (2) A new pair whose email
matches an existing account links the OAuth identity onto that account
(`is_new_user` false) without adding a row.  (3) A new pair with an unknown
email appends one brand-new trial account. -/
theorem oauth_resolution_spec :
    (∀ db info gu gu' now now',
      (resolve_oauth (resolve_oauth db info gu now).2 info gu' now').1.1 =
        { (resolve_oauth db info gu now).1.1 with last_login_at := some now' } ∧
      (resolve_oauth (resolve_oauth db info gu now).2 info gu' now').1.2 = false ∧
      (resolve_oauth (resolve_oauth db info gu now).2 info gu' now').2 =
        (resolve_oauth db info gu now).2.replace_user
          { (resolve_oauth db info gu now).1.1 with last_login_at := some now' } ∧
      (resolve_oauth (resolve_oauth db info gu now).2 info gu' now').2.users.length =
        (resolve_oauth db info gu now).2.users.length) ∧
    (∀ db info gu now eu,
      get_by_oauth_provider db info.provider info.provider_id = none →
      get_by_email db info.email = some eu →
      (resolve_oauth db info gu now).1.1 = link_oauth_account eu info now ∧
      (resolve_oauth db info gu now).1.1.id = eu.id ∧
      (resolve_oauth db info gu now).1.2 = false ∧
      (resolve_oauth db info gu now).2.users.length = db.users.length) ∧
    (∀ db info gu now,
      get_by_oauth_provider db info.provider info.provider_id = none →
      get_by_email db info.email = none →
      (resolve_oauth db info gu now).1.2 = true ∧
      (resolve_oauth db info gu now).1.1.user_type = UserType.trial ∧
      (resolve_oauth db info gu now).2.users =
        db.users ++ [(resolve_oauth db info gu now).1.1]) := by
  refine ⟨?_, ?_, ?_⟩
  · intro db info gu gu' now now'
    have hf := resolve_finds db info gu now
    have hval : resolve_oauth (resolve_oauth db info gu now).2 info gu' now' =
        (({ (resolve_oauth db info gu now).1.1 with last_login_at := some now' },
            false),
          (resolve_oauth db info gu now).2.replace_user
            { (resolve_oauth db info gu now).1.1 with last_login_at := some now' }) := by
      set r1 := resolve_oauth db info gu now with hr1
      unfold resolve_oauth
      rw [hf]
    exact ⟨by rw [hval], by rw [hval], by rw [hval],
      by rw [hval]; simp [DB.replace_user]⟩
  · intro db info gu now eu h1 h2
    have hval : resolve_oauth db info gu now =
        ((link_oauth_account eu info now, false),
          db.replace_user (link_oauth_account eu info now)) := by
      unfold resolve_oauth
      rw [h1, h2]
    exact ⟨by rw [hval], by rw [hval, link_oauth_account],
      by rw [hval], by rw [hval]; simp [DB.replace_user]⟩
  · intro db info gu now h1 h2
    have hval : resolve_oauth db info gu now =
        (((create_oauth_user db info gu now).1, true),
          (create_oauth_user db info gu now).2) := by
      unfold resolve_oauth
      rw [h1, h2]
    exact ⟨by rw [hval], by rw [hval]; rfl, by rw [hval]; rfl⟩

/-- Closed instantiation of `oauth_resolution_spec` (third part) on an empty
table: a never-seen Google identity with an unknown email creates a brand-new
trial account. -/
theorem oauth_resolution_spec_witness :
    get_by_oauth_provider { users := [], next_id := 0 } "google"
      (some "sub-1") = none ∧
    get_by_email { users := [], next_id := 0 } (some "g@x.com") = none ∧
    ((resolve_oauth { users := [], next_id := 0 }
        { provider := "google", provider_id := some "sub-1",
          email := some "g@x.com", email_verified := true }
        "user_oauth001" 0).1.2 = true ∧
     (resolve_oauth { users := [], next_id := 0 }
        { provider := "google", provider_id := some "sub-1",
          email := some "g@x.com", email_verified := true }
        "user_oauth001" 0).1.1.user_type = UserType.trial ∧
     (resolve_oauth { users := [], next_id := 0 }
        { provider := "google", provider_id := some "sub-1",
          email := some "g@x.com", email_verified := true }
        "user_oauth001" 0).2.users =
       [] ++ [(resolve_oauth { users := [], next_id := 0 }
        { provider := "google", provider_id := some "sub-1",
          email := some "g@x.com", email_verified := true }
        "user_oauth001" 0).1.1]) :=
  ⟨by decide, by decide,
   oauth_resolution_spec.2.2 { users := [], next_id := 0 }
     { provider := "google", provider_id := some "sub-1",
       email := some "g@x.com", email_verified := true }
     "user_oauth001" 0 (by decide) (by decide)⟩

/-- C6: `link_oauth_account` sets exactly the OAuth attributes
(provider, provider id, email-verified flag) and `updated_at`, and leaves the
password hash, username, email, device id, tier and every other field of the
account unchanged. -/
theorem link_oauth_account_frame (u : User) (info : OAuthInfo) (now : Int) :
    (link_oauth_account u info now).oauth_provider = some info.provider ∧
    (link_oauth_account u info now).oauth_provider_id = info.provider_id ∧
    (link_oauth_account u info now).oauth_email_verified = info.email_verified ∧
    (link_oauth_account u info now).updated_at = some now ∧
    (link_oauth_account u info now).id = u.id ∧
    (link_oauth_account u info now).username = u.username ∧
    (link_oauth_account u info now).email = u.email ∧
    (link_oauth_account u info now).hashed_password = u.hashed_password ∧
    (link_oauth_account u info now).user_type = u.user_type ∧
    (link_oauth_account u info now).status = u.status ∧
    (link_oauth_account u info now).device_id = u.device_id ∧
    (link_oauth_account u info now).user_agent = u.user_agent ∧
    (link_oauth_account u info now).ip_address = u.ip_address ∧
    (link_oauth_account u info now).trial_start_date = u.trial_start_date ∧
    (link_oauth_account u info now).trial_end_date = u.trial_end_date ∧
    (link_oauth_account u info now).subscription_start_date =
      u.subscription_start_date ∧
    (link_oauth_account u info now).subscription_end_date =
      u.subscription_end_date ∧
    (link_oauth_account u info now).max_follows = u.max_follows ∧
    (link_oauth_account u info now).current_follows = u.current_follows ∧
    (link_oauth_account u info now).email_notifications =
      u.email_notifications ∧
    (link_oauth_account u info now).sms_notifications = u.sms_notifications ∧
    (link_oauth_account u info now).push_notifications = u.push_notifications ∧
    (link_oauth_account u info now).created_at = u.created_at ∧
    (link_oauth_account u info now).last_login_at = u.last_login_at := by
  refine ⟨rfl, rfl, rfl, rfl, rfl, rfl, rfl, rfl, rfl, rfl, rfl, rfl, rfl,
    rfl, rfl, rfl, rfl, rfl, rfl, rfl, rfl, rfl, rfl, rfl⟩

/-! ## Password authentication (`crud_user.py` lines 71-77) -/

/-- The lookup inside `CRUDUser.authenticate`: first row whose username or
email equals the identifier. -/
def authenticate_lookup (db : DB) (username : String) : Option User :=
  db.users.find? (fun u => u.username = username ∨ u.email = some username)

/-- `CRUDUser.authenticate` (`crud_user.py` lines 71-77): `None` when no row
matches or the password does not verify against the stored hash, the row
otherwise. -/
def authenticate (db : DB) (username password : String) : Option User :=
  match authenticate_lookup db username with
  | none => none
  | some u => if verify_password password u.hashed_password then some u else none

/-- C7: `authenticate` returns none when no account matches the identifier,
and when an account matches but the password fails against its stored hash —
in particular for an absent hash (e.g. OAuth-created accounts, which are
created with no password hash) — and it returns an account only on a hash
match. -/
theorem authenticate_spec (db : DB) (ident pw : String) :
    (authenticate_lookup db ident = none → authenticate db ident pw = none) ∧
    (∀ u, authenticate_lookup db ident = some u →
      verify_password pw u.hashed_password = false →
      authenticate db ident pw = none) ∧
    (∀ u, authenticate_lookup db ident = some u →
      u.hashed_password = none → authenticate db ident pw = none) ∧
    (∀ u, authenticate db ident pw = some u →
      verify_password pw u.hashed_password = true) ∧
    (∀ info gu now, (create_oauth_user db info gu now).1.hashed_password = none) := by
  refine ⟨?_, ?_, ?_, ?_, ?_⟩
  · intro h
    simp [authenticate, h]
  · intro u hu hv
    simp [authenticate, hu, hv]
  · intro u hu hnone
    simp [authenticate, hu, verify_password, hnone]
  · intro u hu
    unfold authenticate at hu
    cases hl : authenticate_lookup db ident with
    | none => rw [hl] at hu; exact absurd hu (by simp)
    | some w =>
      rw [hl] at hu
      dsimp only at hu
      by_cases hv : verify_password pw w.hashed_password
      · rw [if_pos hv] at hu
        obtain rfl : w = u := by injection hu
        exact hv
      · rw [if_neg hv] at hu
        exact absurd hu (by simp)
  · intro info gu now
    rfl

/-- Closed instantiation of `authenticate_spec`: an account with no stored
password hash rejects any password. -/
theorem authenticate_spec_witness :
    authenticate_lookup { users := [sampleUser], next_id := 2 } "u" =
      some sampleUser ∧
    sampleUser.hashed_password = none ∧
    authenticate { users := [sampleUser], next_id := 2 } "u" "guess" = none :=
  ⟨by decide, by decide,
   (authenticate_spec { users := [sampleUser], next_id := 2 } "u" "guess").2.2.1
     sampleUser (by decide) (by decide)⟩

/-- C8: a stored verification code fails more than 300 seconds after
issuance, and is single-use — after one successful verification the key is
deleted, so any further verification for that email fails. -/
theorem verification_code_expiry_and_single_use :
    (∀ store email code now t, now + 300 < t →
      (verify_code (store_verification_code store email code now 300)
        email code t).1 = false) ∧
    (∀ store email code now,
      (verify_code store email code now).1 = true →
      ∀ code' t',
        (verify_code ((verify_code store email code now).2) email code' t').1 =
          false) := by
  constructor
  · intro store email code now t ht
    unfold verify_code store_verification_code redis_setex redis_get
    rw [List.find?_cons_of_pos _ (by simp)]
    dsimp only
    rw [if_neg (by omega)]
  · intro store email code now hok code' t'
    have hdel : (verify_code store email code now).2 =
        redis_delete store email := by
      unfold verify_code at hok ⊢
      cases hrg : redis_get store email now with
      | none => rw [hrg] at hok; simp at hok
      | some e =>
        rw [hrg] at hok
        dsimp only at hok ⊢
        by_cases hc : e.code = code ∧ now ≤ e.expires_at
        · rw [if_pos hc]
        · rw [if_neg hc] at hok; simp at hok
    rw [hdel]
    have hget : redis_get (redis_delete store email) email t' = none := by
      unfold redis_get redis_delete
      rw [List.find?_eq_none.mpr ?_]
      intro p hp
      have := List.mem_filter.mp hp
      simpa using this.2
    unfold verify_code
    rw [hget]

/-- Closed instantiation of `verification_code_expiry_and_single_use`:
a code stored at time 0 no longer verifies at time 301. -/
theorem verification_code_expiry_witness :
    ((0 : Int) + 300 < 301) ∧
    (verify_code (store_verification_code [] "a@x.com" "123456" 0 300)
      "a@x.com" "123456" 301).1 = false :=
  ⟨by decide,
   verification_code_expiry_and_single_use.1 [] "a@x.com" "123456" 0 301
     (by decide)⟩

/-! ## Notification store (`app/models/notification.py`,
`app/crud/crud_notification.py`) -/

/-- `NotificationType` from `app/models/notification.py`. -/
inductive NotificationType where
  | twitter
  | wallet
  | blackrock
  | system
deriving DecidableEq, Repr

/-- `NotificationStatus` from `app/models/notification.py`. -/
inductive NotificationStatus where
  | unread
  | read
  | archived
deriving DecidableEq, Repr

/-- `NotificationPriority` from `app/models/notification.py`. -/
inductive NotificationPriority where
  | low
  | medium
  | high
  | urgent
deriving DecidableEq, Repr

/-- The `notifications` table row from `app/models/notification.py`. -/
structure Notification where
  id : Nat
  user_id : Nat
  title : String
  content : String
  type : NotificationType
  priority : NotificationPriority
  status : NotificationStatus
  related_id : Option String
  related_data : Option String
  created_at : Option Int
  read_at : Option Int
deriving DecidableEq, Repr

/-- The row transformation of the bulk `UPDATE` issued by
`batch_update_status`: a row is rewritten iff its id is in the requested list
and it belongs to the calling user. -/
def batch_row (ids : List Nat) (user_id : Nat) (status : NotificationStatus)
    (n : Notification) : Notification :=
  if n.id ∈ ids ∧ n.user_id = user_id then { n with status := status } else n

/-- `CRUDNotification.batch_update_status` (`crud_notification.py` lines
127-142): `UPDATE notifications SET status = ... WHERE id IN ids AND
user_id = user_id`; returns the matched-row count and the updated table. -/
def batch_update_status (rows : List Notification) (ids : List Nat)
    (user_id : Nat) (status : NotificationStatus) :
    Nat × List Notification :=
  ((rows.filter (fun n => n.id ∈ ids ∧ n.user_id = user_id)).length,
   rows.map (batch_row ids user_id status))

/-- C9: `batch_update_status` touches only rows owned by the caller: the
table keeps its shape, every row belonging to a different account is left
entirely unchanged (ids not owned are skipped without error), and the
returned count is the number of the caller's rows among the requested ids. -/
theorem batch_update_status_spec (rows : List Notification) (ids : List Nat)
    (user_id : Nat) (status : NotificationStatus) :
    (batch_update_status rows ids user_id status).2.length = rows.length ∧
    (∀ i, i < rows.length →
      ∀ n, rows.get? i = some n → n.user_id ≠ user_id →
        (batch_update_status rows ids user_id status).2.get? i = some n) ∧
    (batch_update_status rows ids user_id status).1 =
      (rows.filter (fun n => n.id ∈ ids ∧ n.user_id = user_id)).length := by
  refine ⟨by simp [batch_update_status], ?_, rfl⟩
  intro i _ n hget hne
  unfold batch_update_status
  dsimp only
  rw [List.get?_map, hget]
  rw [show Option.map (batch_row ids user_id status) (some n) =
      some (batch_row ids user_id status n) from rfl]
  rw [batch_row, if_neg (fun h => hne h.2)]

/-- Closed instantiation of `batch_update_status_spec`: user 1 batch-reads a
list containing user 2's notification; user 2's row is untouched and the
count is 0. -/
theorem batch_update_status_spec_witness :
    ((0 : Nat) < 1) ∧
    [⟨7, 2, "t", "c", NotificationType.system, NotificationPriority.medium,
        NotificationStatus.unread, none, none, some 0, none⟩].get? 0 =
      some (⟨7, 2, "t", "c", NotificationType.system,
        NotificationPriority.medium, NotificationStatus.unread, none, none,
        some 0, none⟩ : Notification) ∧
    ((2 : Nat) ≠ 1) ∧
    (batch_update_status
      [⟨7, 2, "t", "c", NotificationType.system, NotificationPriority.medium,
        NotificationStatus.unread, none, none, some 0, none⟩]
      [7] 1 NotificationStatus.read).2.get? 0 =
      some (⟨7, 2, "t", "c", NotificationType.system,
        NotificationPriority.medium, NotificationStatus.unread, none, none,
        some 0, none⟩ : Notification) :=
  ⟨by decide, by decide, by decide,
   (batch_update_status_spec
      [⟨7, 2, "t", "c", NotificationType.system, NotificationPriority.medium,
        NotificationStatus.unread, none, none, some 0, none⟩]
      [7] 1 NotificationStatus.read).2.1 0 (by decide) _ (by decide)
      (by decide)⟩

/-! ## Usage statistics (`app/api/v1/endpoints/users.py` lines 184-196) -/

/-- A Python `timedelta`'s `.days` attribute: floor division of the
difference in seconds by 86400. -/
def timedelta_days (seconds : Int) : Int := seconds / 86400

/-- The body returned by `get_usage_stats`. -/
structure UsageStats where
  follows_count : Int
  max_follows : Int
  notifications_today : Int
  last_login : Option Int
  account_age_days : Int
deriving DecidableEq, Repr

/-- `get_usage_stats` (`users.py` lines 184-196): `notifications_today` is
the literal 0 (marked 待实现/to-be-implemented) and `account_age_days` is
`(created_at - created_at).days` when `created_at` is truthy, else 0. -/
def get_usage_stats (u : User) : UsageStats :=
  { follows_count := u.current_follows,
    max_follows := u.max_follows,
    notifications_today := 0,
    last_login := u.last_login_at,
    account_age_days :=
      match u.created_at with
      | some c => timedelta_days (c - c)
      | none => 0 }

/-- C10: for every account with `created_at` set, the usage stats report
`account_age_days = 0` — the code subtracts `created_at` from itself — and
`notifications_today = 0`, regardless of the account's age or notifications. -/
theorem get_usage_stats_zeroes (u : User) (c : Int)
    (hc : u.created_at = some c) :
    (get_usage_stats u).account_age_days = 0 ∧
    (get_usage_stats u).notifications_today = 0 := by
  constructor
  · unfold get_usage_stats
    dsimp only
    rw [hc]
    simp [timedelta_days]
  · rfl

/-- Closed instantiation of `get_usage_stats_zeroes` at a concrete account
created at time 0. -/
theorem get_usage_stats_zeroes_witness :
    sampleUser.created_at = some 0 ∧
    (get_usage_stats sampleUser).account_age_days = 0 ∧
    (get_usage_stats sampleUser).notifications_today = 0 :=
  ⟨by decide, get_usage_stats_zeroes sampleUser 0 (by decide)⟩

end CryptoMonitor
